import Mathlib

/-!
# Verification of the GWAS post-processing scripts

A shallow embedding of the two batch scripts `extract_top_snps.py` and
`generate_plots.py`, together with theorems settling the specification
claims about them.

Modelling conventions:
* A table cell is `Option ℚ`: `none` models a missing value (pandas `NaN`,
  for which `notna` is false); `some q` models a present value.  String
  cells never influence any claim (non-p-value columns are only selected
  and copied, never inspected), so a numeric token suffices for them.
* `pd.read_csv` inside the extractor's `try/except` is modelled by passing
  the read outcome as an `Except String Frame` argument.
* Machine floats are modelled by ℚ for the finite values actually compared
  and thresholded; where IEEE non-finite values matter (NaN/inf from
  `np.log10`) the relevant predicate is embedded explicitly
  (`neglog10IsNaN`).
-/

namespace GWAS

/-- A parsed whitespace-delimited table: header names plus rows of cells.
Mirrors the `DataFrame` produced by `pd.read_csv(..., delim_whitespace=True)`. -/
structure Frame where
  cols : List String
  rows : List (List (Option ℚ))
deriving Repr, DecidableEq

/-- A row of a frame. -/
abbrev Row := List (Option ℚ)

/-- Cell of `r` at column position `i`; out-of-range reads as missing. -/
def rowP (pIdx : ℕ) (r : Row) : Option ℚ :=
  r.getD pIdx none

/-- Resolution of the p-value column, the line
`p_col = 'P' if 'P' in df.columns else df.columns[8]`
shared verbatim by `extract_top_snps`, `manhattan_plot` and `qq_plot`:
prefer a column named `P`; otherwise take column position 8, which raises
an uncaught `IndexError` (`none` here) when the frame has fewer than 9
columns. -/
def resolvePCol (f : Frame) : Option ℕ :=
  if f.cols.contains "P" then f.cols.indexOf? "P"
  else if 8 < f.cols.length then some 8
  else none

/-- `df_clean = df[df[p_col].notna()]`: keep rows whose p-cell is present. -/
def cleanRows (pIdx : ℕ) (rows : List Row) : List Row :=
  rows.filter (fun r => (rowP pIdx r).isSome)

/-- Comparison key used when sorting cleaned rows by p-value. -/
def pLe (pIdx : ℕ) (a b : Row) : Bool :=
  decide ((rowP pIdx a).getD 0 ≤ (rowP pIdx b).getD 0)

/-- `df_sorted = df_clean.sort_values(by=p_col)`: ascending by p-value.
The source relies on the pandas default sort kind (`'quicksort'`, numpy
introsort), which orders by the key but gives no guarantee on the relative
order of tied keys; `mergeSort` reproduces the key order.  No theorem
below that is marked `confirmed` depends on the order among tied p-values
(the tie-order question itself is claim C1, settled outside this file
because numpy's introsort is library code, not code of this repository). -/
def sortByP (pIdx : ℕ) (rows : List Row) : List Row :=
  rows.insertionSort (fun a b => pLe pIdx a b)

/-- Genome-wide significance threshold 5e-8. -/
def gwThreshold : ℚ := mkRat 5 100000000

/-- Suggestive significance threshold 1e-5. -/
def suggThreshold : ℚ := mkRat 1 100000

/-- `df_clean[p_col] < t` for a single row: false on a missing cell
(pandas: `NaN < t` is false). -/
def pLT (pIdx : ℕ) (r : Row) (t : ℚ) : Bool :=
  match rowP pIdx r with
  | some x => decide (x < t)
  | none => false

/-- Columns demanded by the summary-statistics projection
`df_clean[['CHR', 'SNP', 'BP', 'A1', p_col]]`. -/
def requiredCols : List String := ["CHR", "SNP", "BP", "A1"]

/-- Position of a named column (first occurrence, as in pandas). -/
def colIdx (f : Frame) (c : String) : ℕ :=
  (f.cols.indexOf? c).getD 0

/-- The summary row for one cleaned record: cells of `CHR`, `SNP`, `BP`,
`A1` and the p-value column, in that order (the result frame renames the
last column to `P`). -/
def projectSummary (f : Frame) (pIdx : ℕ) (r : Row) : Row :=
  [r.getD (colIdx f "CHR") none, r.getD (colIdx f "SNP") none,
   r.getD (colIdx f "BP") none, r.getD (colIdx f "A1") none,
   r.getD pIdx none]

/-- The five derived tables written on a fully successful run, plus the
returned pair `(len(gw_sig), len(suggestive))`. -/
structure ExtractOk where
  top1000 : List Row
  top100 : List Row
  gwSig : List Row
  suggestive : List Row
  summaryRows : List Row
  counts : ℕ × ℕ
deriving Repr, DecidableEq

/-- Control-flow outcome of `extract_top_snps`:
* `readError`: `pd.read_csv` raised; the message is printed and the
  function returns `None` — no file is written;
* `pColError`: uncaught `IndexError` from `df.columns[8]` — no file
  written, and this happens outside the read `try/except`;
* `summaryError`: uncaught `KeyError` from the summary projection — the
  four earlier files were already written (their contents are recorded);
* `ok`: all five files written; counts returned. -/
inductive ExtractResult where
  | readError (msg : String) : ExtractResult
  | pColError : ExtractResult
  | summaryError (top1000 top100 gwSig suggestive : List Row) : ExtractResult
  | ok (out : ExtractOk) : ExtractResult
deriving Repr, DecidableEq

/-- The extractor `extract_top_snps(input_file, output_prefix, n_top=1000)`,
with the read outcome passed in explicitly. -/
def extractTopSnps (read : Except String Frame) (nTop : ℕ) : ExtractResult :=
  match read with
  | .error e => .readError e
  | .ok f =>
    match resolvePCol f with
    | none => .pColError
    | some pIdx =>
      let dfClean := cleanRows pIdx f.rows
      let dfSorted := sortByP pIdx dfClean
      let top1000 := dfSorted.take nTop
      let top100 := dfSorted.take 100
      let gwSig := dfClean.filter (fun r => pLT pIdx r gwThreshold)
      let sugg := dfClean.filter (fun r => pLT pIdx r suggThreshold)
      if requiredCols.all f.cols.contains then
        .ok ⟨top1000, top100, gwSig, sugg,
             dfClean.map (projectSummary f pIdx), (gwSig.length, sugg.length)⟩
      else
        .summaryError top1000 top100 gwSig sugg

/-- Names of the output files present on disk after the run, in the order
the source writes them. -/
def filesWritten : ExtractResult → List String
  | .readError _ => []
  | .pColError => []
  | .summaryError _ _ _ _ =>
      ["top_1000_snps.txt", "top_100_snps.txt",
       "genome_wide_significant_snps_5e-8.txt", "suggestive_snps_1e-5.txt"]
  | .ok _ =>
      ["top_1000_snps.txt", "top_100_snps.txt",
       "genome_wide_significant_snps_5e-8.txt", "suggestive_snps_1e-5.txt",
       "summary_statistics.txt"]

/-- The Python function's return value: `None` on the caught read error
(and nothing is returned at all when an exception propagates), the pair
of counts on success. -/
def returnValue : ExtractResult → Option (ℕ × ℕ)
  | .ok o => some o.counts
  | _ => none

/-- Error lines printed by the extractor: the caught read failure prints
its cause; no other branch prints an error before raising. -/
def errorReport : ExtractResult → List String
  | .readError e => ["Error reading file: " ++ e]
  | _ => []

/-- Outcome of the extractor command line
(`if len(sys.argv) < 3: usage, exit 1`).  `argv` includes the script name
at position 0.  Note the source reads only `sys.argv[1]` and `sys.argv[2]`
and calls `extract_top_snps` without a third argument, so `n_top` is
always the default 1000. -/
inductive CliResult where
  | usageExit : CliResult
  | ran (r : ExtractResult) : CliResult
deriving Repr, DecidableEq

/-- The `__main__` block of `extract_top_snps.py`. -/
def cliMain (read : String → Except String Frame) (argv : List String) : CliResult :=
  if argv.length < 3 then .usageExit
  else .ran (extractTopSnps (read (argv.getD 1 "")) 1000)

/-- Outcome of a plot routine up to the point the claims talk about:
either the uncaught `IndexError` from p-column resolution, or the data it
goes on to plot. -/
inductive PlotData (α : Type) where
  | pColError : PlotData α
  | ok (a : α) : PlotData α
deriving Repr, DecidableEq

/-- `np.log10 q` is NaN exactly for negative `q`; `np.log10 0` is `-inf`,
which is *not* NaN, so `-np.log10(0) = +inf` survives a `notna` filter. -/
def neglog10IsNaN (q : ℚ) : Bool :=
  decide (q < 0)

/-- Rows of the association table retained by `manhattan_plot` after its
cleaning steps: drop rows with missing p
(`df = df[df[p_col].notna()]`), then compute
`df['MINLOG10P'] = -np.log10(df[p_col])` and drop the rows where that
value is NaN (`df = df[df['MINLOG10P'].notna()]`).  The later
`sort_values(['CHR','BP'])` permutes but does not change this set. -/
def manhattanData (f : Frame) : PlotData (List Row) :=
  match resolvePCol f with
  | none => .pColError
  | some pIdx =>
      .ok (((f.rows.filter (fun r => (rowP pIdx r).isSome)).filter
            (fun r => !neglog10IsNaN ((rowP pIdx r).getD 0))))

/-- p-values retained by `qq_plot`:
`pvals = df[df[p_col].notna()][p_col].values` then `pvals = pvals[pvals > 0]`. -/
def qqCleanOf (f : Frame) (pIdx : ℕ) : List ℚ :=
  (f.rows.filterMap (rowP pIdx)).filter (fun q => decide (0 < q))

/-- `qq_plot` up to its cleaned p-value vector. -/
def qqData (f : Frame) : PlotData (List ℚ) :=
  match resolvePCol f with
  | none => .pColError
  | some pIdx => .ok (qqCleanOf f pIdx)

/-- The quantile positions `np.arange(1, n + 1) / (n + 1)`. -/
def qqPositions (n : ℕ) : List ℚ :=
  (List.range n).map (fun i : ℕ => ((i : ℚ) + 1) / ((n : ℚ) + 1))

/-- `expected = -np.log10(np.arange(1, n + 1) / (n + 1))`.  The positions
are exact rationals (`qqPositions`); the `-log10` transform lives in ℝ,
hence this definition is not executable — witnesses evaluate it through
`simp`/`norm_num` instead. -/
noncomputable def qqExpected (n : ℕ) : List ℝ :=
  (qqPositions n).map (fun q : ℚ => -(Real.logb 10 (q : ℝ)))

/-- `np.percentile(pvals, 50)` with the default linear interpolation:
sort, take position `(n-1)/2`; an exact element when `n` is odd, the
midpoint of the two central elements when `n` is even.  `none` models the
exception numpy raises on an empty vector. -/
def percentile50 (xs : List ℚ) : Option ℚ :=
  if xs = [] then none
  else
    let s := xs.insertionSort (fun a b => a ≤ b)
    if (s.length - 1) % 2 = 0 then some (s.getD ((s.length - 1) / 2) 0)
    else some ((s.getD ((s.length - 1) / 2) 0 + s.getD ((s.length - 1) / 2 + 1) 0) / 2)

/-- Whether `qq_plot` takes the `else 1.0` fallback of
`lambda_gc = ... / chisq if chisq > 0 else 1.0`: the branch is reached
only when `np.percentile` returned a value, and taken when that value is
not positive. -/
def lambdaFallbackTaken (ps : List ℚ) : Bool :=
  match percentile50 ps with
  | some c => !(decide (0 < c))
  | none => false

/-! ## Concrete fixtures

`frameEx` is the worked example of the specification (§8): five records
with p-values `[0.5, NA, 4e-9, 2e-6, 1e-7]`.  `oEx` is the extractor
output on it, checked by kernel evaluation below. -/

/-- The specification's example table: p-values `0.5, NA, 4e-9, 2e-6, 1e-7`. -/
def frameEx : Frame :=
  ⟨["CHR", "SNP", "BP", "A1", "P"],
   [[some 1, some 101, some 11, some 1, some (mkRat 1 2)],
    [some 1, some 102, some 12, some 2, none],
    [some 2, some 103, some 13, some 1, some (mkRat 4 1000000000)],
    [some 2, some 104, some 14, some 2, some (mkRat 2 1000000)],
    [some 3, some 105, some 15, some 1, some (mkRat 1 10000000)]]⟩

/-- Extractor output on `frameEx` with the default `n_top = 1000`. -/
def oEx : ExtractOk :=
  ⟨[[some 2, some 103, some 13, some 1, some (mkRat 4 1000000000)],
    [some 3, some 105, some 15, some 1, some (mkRat 1 10000000)],
    [some 2, some 104, some 14, some 2, some (mkRat 2 1000000)],
    [some 1, some 101, some 11, some 1, some (mkRat 1 2)]],
   [[some 2, some 103, some 13, some 1, some (mkRat 4 1000000000)],
    [some 3, some 105, some 15, some 1, some (mkRat 1 10000000)],
    [some 2, some 104, some 14, some 2, some (mkRat 2 1000000)],
    [some 1, some 101, some 11, some 1, some (mkRat 1 2)]],
   [[some 2, some 103, some 13, some 1, some (mkRat 4 1000000000)]],
   [[some 2, some 103, some 13, some 1, some (mkRat 4 1000000000)],
    [some 2, some 104, some 14, some 2, some (mkRat 2 1000000)],
    [some 3, some 105, some 15, some 1, some (mkRat 1 10000000)]],
   [[some 1, some 101, some 11, some 1, some (mkRat 1 2)],
    [some 2, some 103, some 13, some 1, some (mkRat 4 1000000000)],
    [some 2, some 104, some 14, some 2, some (mkRat 2 1000000)],
    [some 3, some 105, some 15, some 1, some (mkRat 1 10000000)]],
   (1, 3)⟩

/-- A record whose p-value is exactly 0 (present but non-positive). -/
def rowZero : Row := [some 1, some 101, some 11, some 1, some 0]

/-- A one-record table whose single p-value is 0. -/
def frameP0 : Frame :=
  ⟨["CHR", "SNP", "BP", "A1", "P"], [rowZero]⟩

/-- A two-record table with p-values 1/2 and 1/4. -/
def frame2 : Frame :=
  ⟨["CHR", "SNP", "BP", "A1", "P"],
   [[some 1, some 201, some 21, some 1, some (mkRat 1 2)],
    [some 1, some 202, some 22, some 1, some (mkRat 1 4)]]⟩

/-- A read function serving `frame2` for the path `"in"`. -/
def readEx : String → Except String Frame :=
  fun s => if s = "in" then .ok frame2 else .error "file not found"

/-- Extractor output on `frame2` with `n_top = 1`: the top-1000 file holds
one record while the top-100 file holds two. -/
def o2 : ExtractOk :=
  ⟨[[some 1, some 202, some 22, some 1, some (mkRat 1 4)]],
   [[some 1, some 202, some 22, some 1, some (mkRat 1 4)],
    [some 1, some 201, some 21, some 1, some (mkRat 1 2)]],
   [], [],
   [[some 1, some 201, some 21, some 1, some (mkRat 1 2)],
    [some 1, some 202, some 22, some 1, some (mkRat 1 4)]],
   (0, 0)⟩

/-- Extractor output on `frame2` with the default `n_top = 1000`. -/
def o2Full : ExtractOk :=
  ⟨[[some 1, some 202, some 22, some 1, some (mkRat 1 4)],
    [some 1, some 201, some 21, some 1, some (mkRat 1 2)]],
   [[some 1, some 202, some 22, some 1, some (mkRat 1 4)],
    [some 1, some 201, some 21, some 1, some (mkRat 1 2)]],
   [], [],
   [[some 1, some 201, some 21, some 1, some (mkRat 1 2)],
    [some 1, some 202, some 22, some 1, some (mkRat 1 4)]],
   (0, 0)⟩

/-- A table with a single column `P` and three valid p-values 1/2. -/
def frameQ3 : Frame :=
  ⟨["P"], [[some (mkRat 1 2)], [some (mkRat 1 2)], [some (mkRat 1 2)]]⟩

/-! ## Helper lemmas -/

/-- A row passing a threshold filter has a present p-value. -/
lemma pLT_isSome {pIdx : ℕ} {r : Row} {t : ℚ} (h : pLT pIdx r t = true) :
    (rowP pIdx r).isSome = true := by
  unfold pLT at h
  cases hr : rowP pIdx r with
  | none => rw [hr] at h; exact absurd h (by simp)
  | some q => rfl

/-- Genome-wide significance implies suggestive significance: 5e-8 ≤ 1e-5. -/
lemma pLT_gw_sugg {pIdx : ℕ} {r : Row} (h : pLT pIdx r gwThreshold = true) :
    pLT pIdx r suggThreshold = true := by
  unfold pLT at h ⊢
  cases hr : rowP pIdx r with
  | none => rw [hr] at h; exact absurd h (by simp)
  | some q =>
      rw [hr] at h
      simp only [decide_eq_true_eq] at h ⊢
      exact lt_of_lt_of_le h (by decide)

/-- Sorting permutes, hence preserves membership. -/
lemma mem_sortByP {pIdx : ℕ} {l : List Row} {r : Row} :
    r ∈ sortByP pIdx l ↔ r ∈ l :=
  List.mem_insertionSort _

/-- Sorting preserves length. -/
lemma length_sortByP (pIdx : ℕ) (l : List Row) :
    (sortByP pIdx l).length = l.length :=
  List.length_insertionSort _ _

/-- Unfolding of the extractor on a successfully read frame whose p-value
column resolved: the run reaches the summary projection, which succeeds or
raises according to the presence of the required named columns. -/
lemma extract_eq (f : Frame) (nTop pIdx : ℕ) (h : resolvePCol f = some pIdx) :
    extractTopSnps (.ok f) nTop =
      if requiredCols.all f.cols.contains then
        .ok ⟨(sortByP pIdx (cleanRows pIdx f.rows)).take nTop,
             (sortByP pIdx (cleanRows pIdx f.rows)).take 100,
             (cleanRows pIdx f.rows).filter (fun r => pLT pIdx r gwThreshold),
             (cleanRows pIdx f.rows).filter (fun r => pLT pIdx r suggThreshold),
             (cleanRows pIdx f.rows).map (projectSummary f pIdx),
             (((cleanRows pIdx f.rows).filter (fun r => pLT pIdx r gwThreshold)).length,
              ((cleanRows pIdx f.rows).filter (fun r => pLT pIdx r suggThreshold)).length)⟩
      else
        .summaryError ((sortByP pIdx (cleanRows pIdx f.rows)).take nTop)
          ((sortByP pIdx (cleanRows pIdx f.rows)).take 100)
          ((cleanRows pIdx f.rows).filter (fun r => pLT pIdx r gwThreshold))
          ((cleanRows pIdx f.rows).filter (fun r => pLT pIdx r suggThreshold)) := by
  simp only [extractTopSnps, h]

/-- Inversion: a successful run forces the canonical field values. -/
lemma extract_ok_fields (f : Frame) (nTop pIdx : ℕ) (h : resolvePCol f = some pIdx)
    (o : ExtractOk) (ho : extractTopSnps (.ok f) nTop = .ok o) :
    o = ⟨(sortByP pIdx (cleanRows pIdx f.rows)).take nTop,
         (sortByP pIdx (cleanRows pIdx f.rows)).take 100,
         (cleanRows pIdx f.rows).filter (fun r => pLT pIdx r gwThreshold),
         (cleanRows pIdx f.rows).filter (fun r => pLT pIdx r suggThreshold),
         (cleanRows pIdx f.rows).map (projectSummary f pIdx),
         (((cleanRows pIdx f.rows).filter (fun r => pLT pIdx r gwThreshold)).length,
          ((cleanRows pIdx f.rows).filter (fun r => pLT pIdx r suggThreshold)).length)⟩ := by
  rw [extract_eq f nTop pIdx h] at ho
  split at ho
  · injection ho with h1
    exact h1.symm
  · exact absurd ho (by simp)

/-- An in-range entry of the sorted copy of a list of positives is positive. -/
lemma getD_sort_pos {xs : List ℚ} (hpos : ∀ q ∈ xs, 0 < q) {i : ℕ}
    (hi : i < (xs.insertionSort (fun a b => a ≤ b)).length) :
    0 < (xs.insertionSort (fun a b => a ≤ b)).getD i 0 := by
  rw [List.getD_eq_getElem _ _ hi]
  exact hpos _ ((List.mem_insertionSort _).mp (List.getElem_mem hi))

/-- The 50th percentile of a nonempty list of positive rationals exists
and is positive. -/
lemma percentile50_pos {xs : List ℚ} (hne : xs ≠ []) (hpos : ∀ q ∈ xs, 0 < q) :
    ∃ c, percentile50 xs = some c ∧ 0 < c := by
  simp only [percentile50, if_neg hne]
  have hn : 0 < (xs.insertionSort (fun a b => a ≤ b)).length := by
    rw [List.length_insertionSort]
    exact List.length_pos.mpr hne
  have hi : ((xs.insertionSort (fun a b => a ≤ b)).length - 1) / 2 <
      (xs.insertionSort (fun a b => a ≤ b)).length :=
    lt_of_le_of_lt (Nat.div_le_self _ _) (Nat.sub_lt hn one_pos)
  split
  · exact ⟨_, rfl, getD_sort_pos hpos hi⟩
  · rename_i hodd
    have h2 : (xs.insertionSort (fun a b => a ≤ b)).length - 1 ≠ 0 := by
      intro h0
      rw [h0] at hodd
      exact hodd rfl
    have hi2 : ((xs.insertionSort (fun a b => a ≤ b)).length - 1) / 2 + 1 <
        (xs.insertionSort (fun a b => a ≤ b)).length := by
      have hlt : ((xs.insertionSort (fun a b => a ≤ b)).length - 1) / 2 <
          (xs.insertionSort (fun a b => a ≤ b)).length - 1 :=
        Nat.div_lt_self (Nat.pos_of_ne_zero h2) one_lt_two
      omega
    exact ⟨_, rfl, div_pos (add_pos (getD_sort_pos hpos hi) (getD_sort_pos hpos hi2)) two_pos⟩

/-- Claim C10: every p-value retained by the Q-Q cleaning is strictly
positive; whenever at least one valid p-value remains, the median
`np.percentile(pvals, 50)` is strictly positive, so the `λ = 1.0`
fallback branch is not taken; the fallback can be taken only on an empty
cleaned set. -/
theorem c10_fallback_unreachable (f : Frame) (pIdx : ℕ)
    (h : resolvePCol f = some pIdx) :
    (∀ q ∈ qqCleanOf f pIdx, 0 < q) ∧
    (qqCleanOf f pIdx ≠ [] →
       ∃ c, percentile50 (qqCleanOf f pIdx) = some c ∧ 0 < c ∧
         lambdaFallbackTaken (qqCleanOf f pIdx) = false) ∧
    (lambdaFallbackTaken (qqCleanOf f pIdx) = true → qqCleanOf f pIdx = []) := by
  have hpos : ∀ q ∈ qqCleanOf f pIdx, 0 < q := by
    intro q hq
    have := (List.mem_filter.mp hq).2
    simpa using this
  refine ⟨hpos, ?_, ?_⟩
  · intro hne
    obtain ⟨c, hc, hcpos⟩ := percentile50_pos hne hpos
    refine ⟨c, hc, hcpos, ?_⟩
    simp only [lambdaFallbackTaken, hc]
    simp [hcpos]
  · intro htaken
    by_contra hne
    obtain ⟨c, hc, hcpos, hfalse⟩ := (by
      obtain ⟨c, hc, hcpos⟩ := percentile50_pos hne hpos
      exact ⟨c, hc, hcpos, by simp only [lambdaFallbackTaken, hc]; simp [hcpos]⟩ :
      ∃ c, percentile50 (qqCleanOf f pIdx) = some c ∧ 0 < c ∧
        lambdaFallbackTaken (qqCleanOf f pIdx) = false)
    rw [htaken] at hfalse
    exact absurd hfalse (by simp)

/-- Witness for C10 at a concrete three-row table. -/
theorem c10_fallback_unreachable_witness :
    (∀ q ∈ qqCleanOf frameQ3 0, 0 < q) ∧
    (qqCleanOf frameQ3 0 ≠ [] →
       ∃ c, percentile50 (qqCleanOf frameQ3 0) = some c ∧ 0 < c ∧
         lambdaFallbackTaken (qqCleanOf frameQ3 0) = false) ∧
    (lambdaFallbackTaken (qqCleanOf frameQ3 0) = true → qqCleanOf frameQ3 0 = []) :=
  c10_fallback_unreachable frameQ3 0 (by decide)

/-- Claim C6: when reading the input table fails, the extractor writes no
output file, reports the cause, returns no counts, and in particular does
not return a success value. -/
theorem c6_read_failure (e : String) (nTop : ℕ) :
    extractTopSnps (Except.error e) nTop = ExtractResult.readError e ∧
    filesWritten (extractTopSnps (Except.error e) nTop) = [] ∧
    returnValue (extractTopSnps (Except.error e) nTop) = none ∧
    errorReport (extractTopSnps (Except.error e) nTop) = ["Error reading file: " ++ e] ∧
    ∀ o, extractTopSnps (Except.error e) nTop ≠ ExtractResult.ok o := by
  refine ⟨rfl, rfl, rfl, rfl, ?_⟩
  intro o hcontra
  exact ExtractResult.noConfusion hcontra

/-- Claim C9: on a parsed table with no column named `P` and fewer than 9
columns, p-value resolution fails (the uncaught `IndexError` of
`df.columns[8]`) in the extractor and in both plot renderers; in the
extractor no file is written and the caught read-error path is not the
one taken. -/
theorem c9_pcol_indexerror (f : Frame) (nTop : ℕ)
    (hP : "P" ∉ f.cols) (hlen : f.cols.length < 9) :
    resolvePCol f = none ∧
    extractTopSnps (.ok f) nTop = ExtractResult.pColError ∧
    manhattanData f = PlotData.pColError ∧
    qqData f = PlotData.pColError ∧
    filesWritten (extractTopSnps (.ok f) nTop) = [] ∧
    ∀ e, extractTopSnps (.ok f) nTop ≠ ExtractResult.readError e := by
  have hres : resolvePCol f = none := by
    unfold resolvePCol
    rw [if_neg (by simpa using hP), if_neg (by omega)]
  refine ⟨hres, ?_, ?_, ?_, ?_, ?_⟩
  · simp only [extractTopSnps, hres]
  · simp only [manhattanData, hres]
  · simp only [qqData, hres]
  · simp only [extractTopSnps, hres, filesWritten]
  · intro e hcontra
    simp only [extractTopSnps, hres] at hcontra
    exact ExtractResult.noConfusion hcontra

/-- Witness for C9 at a one-column table. -/
theorem c9_pcol_indexerror_witness :
    resolvePCol ⟨["CHR"], []⟩ = none ∧
    extractTopSnps (.ok ⟨["CHR"], []⟩) 7 = ExtractResult.pColError ∧
    manhattanData ⟨["CHR"], []⟩ = PlotData.pColError ∧
    qqData ⟨["CHR"], []⟩ = PlotData.pColError ∧
    filesWritten (extractTopSnps (.ok ⟨["CHR"], []⟩) 7) = [] ∧
    ∀ e, extractTopSnps (.ok ⟨["CHR"], []⟩) 7 ≠ ExtractResult.readError e :=
  c9_pcol_indexerror ⟨["CHR"], []⟩ 7 (by decide) (by decide)

/-- Claim C5: the Q-Q expected quantile sequence has one entry per valid
p-value and its `i`-th entry (0-based) is `-log10((i+1)/(n+1))`, i.e.
`-log10(i/(n+1))` for `i = 1..n` in that order; for `n = 3` it is exactly
`[-log10(1/4), -log10(2/4), -log10(3/4)]`. -/
theorem c5_expected (f : Frame) (pIdx : ℕ) (h : resolvePCol f = some pIdx)
    (hn : 1 ≤ (qqCleanOf f pIdx).length) :
    ((qqExpected (qqCleanOf f pIdx).length).length = (qqCleanOf f pIdx).length) ∧
    (∀ i, i < (qqCleanOf f pIdx).length →
       (qqExpected (qqCleanOf f pIdx).length).getD i 0 =
         -(Real.logb 10 (((i : ℝ) + 1) / (((qqCleanOf f pIdx).length : ℝ) + 1)))) ∧
    ((qqCleanOf f pIdx).length = 3 →
       qqExpected 3 =
         [-(Real.logb 10 ((1 : ℝ) / 4)), -(Real.logb 10 ((2 : ℝ) / 4)),
          -(Real.logb 10 ((3 : ℝ) / 4))]) := by
  refine ⟨?_, ?_, ?_⟩
  · simp [qqExpected, qqPositions]
  · intro i hi
    have hlen : i < (qqExpected (qqCleanOf f pIdx).length).length := by
      simpa [qqExpected, qqPositions] using hi
    rw [List.getD_eq_getElem _ _ hlen]
    simp only [qqExpected, qqPositions, List.getElem_map, List.getElem_range]
    push_cast
    ring_nf
  · intro h3
    simp only [qqExpected, qqPositions]
    norm_num [List.range_succ]

/-- Witness for C5 at a table with exactly three valid p-values. -/
theorem c5_expected_witness :
    ((qqExpected (qqCleanOf frameQ3 0).length).length = (qqCleanOf frameQ3 0).length) ∧
    (∀ i, i < (qqCleanOf frameQ3 0).length →
       (qqExpected (qqCleanOf frameQ3 0).length).getD i 0 =
         -(Real.logb 10 (((i : ℝ) + 1) / (((qqCleanOf frameQ3 0).length : ℝ) + 1)))) ∧
    ((qqCleanOf frameQ3 0).length = 3 →
       qqExpected 3 =
         [-(Real.logb 10 ((1 : ℝ) / 4)), -(Real.logb 10 ((2 : ℝ) / 4)),
          -(Real.logb 10 ((3 : ℝ) / 4))]) :=
  c5_expected frameQ3 0 (by decide) (by decide)

/-- Counterexample to claim C2 as stated: on a table whose single record
has the present p-value 0, that record (p ≤ 0) appears in the top-1000
output of the extractor, and the Manhattan renderer retains it as well
(because `-log10(0) = +inf` is not NaN, the post-transform `notna` filter
keeps it). -/
theorem c2_counterexample :
    (¬ ∀ o, extractTopSnps (.ok frameP0) 1000 = ExtractResult.ok o →
        ∀ r ∈ o.top1000, ∀ q, rowP 4 r = some q → 0 < q) ∧
    (¬ ∀ rs, manhattanData frameP0 = PlotData.ok rs →
        ∀ r ∈ rs, ∀ q, rowP 4 r = some q → 0 < q) := by
  constructor
  · intro hcl
    have h1 := hcl ⟨[rowZero], [rowZero], [rowZero], [rowZero], [rowZero], (1, 1)⟩
      (by decide) rowZero (by decide) 0 (by decide)
    exact absurd h1 (lt_irrefl 0)
  · intro hcl
    have h1 := hcl [rowZero] (by decide) rowZero (by decide) 0 (by decide)
    exact absurd h1 (lt_irrefl 0)

/-- Claim C2 amended: the extractor excludes records with a *missing*
p-value from all five outputs (records with present p ≤ 0 are not
excluded); the Manhattan renderer retains exactly records with a present,
*nonnegative* p-value (p < 0 yields NaN after the transform and is
dropped, p = 0 is kept); only the Q-Q renderer excludes all p ≤ 0. -/
theorem c2_amended (f : Frame) (nTop pIdx : ℕ) (h : resolvePCol f = some pIdx) :
    (∀ o, extractTopSnps (.ok f) nTop = ExtractResult.ok o →
       (∀ r ∈ o.top1000, (rowP pIdx r).isSome = true) ∧
       (∀ r ∈ o.top100, (rowP pIdx r).isSome = true) ∧
       (∀ r ∈ o.gwSig, (rowP pIdx r).isSome = true) ∧
       (∀ r ∈ o.suggestive, (rowP pIdx r).isSome = true) ∧
       (∀ r ∈ o.summaryRows, (rowP 4 r).isSome = true)) ∧
    (∀ rs, manhattanData f = PlotData.ok rs →
       ∀ r ∈ rs, ∃ q, rowP pIdx r = some q ∧ 0 ≤ q) ∧
    (∀ ps, qqData f = PlotData.ok ps → ∀ q ∈ ps, 0 < q) := by
  refine ⟨?_, ?_, ?_⟩
  · intro o ho
    rw [extract_ok_fields f nTop pIdx h o ho]
    have hclean : ∀ r ∈ cleanRows pIdx f.rows, (rowP pIdx r).isSome = true := by
      intro r hr
      exact (List.mem_filter.mp hr).2
    refine ⟨?_, ?_, ?_, ?_, ?_⟩
    · intro r hr
      exact hclean r (mem_sortByP.mp (List.take_subset _ _ hr))
    · intro r hr
      exact hclean r (mem_sortByP.mp (List.take_subset _ _ hr))
    · intro r hr
      exact pLT_isSome (List.mem_filter.mp hr).2
    · intro r hr
      exact pLT_isSome (List.mem_filter.mp hr).2
    · intro r hr
      obtain ⟨r0, hr0, hproj⟩ := List.mem_map.mp hr
      rw [← hproj]
      have hpr : rowP 4 (projectSummary f pIdx r0) = rowP pIdx r0 := by
        simp [rowP, projectSummary]
      rw [hpr]
      exact hclean r0 hr0
  · intro rs hrs
    simp only [manhattanData, h] at hrs
    injection hrs with hrs
    intro r hr
    rw [← hrs] at hr
    have h1 := List.mem_filter.mp hr
    have h2 := List.mem_filter.mp h1.1
    have hs := h2.2
    have hb := h1.2
    cases hq : rowP pIdx r with
    | none =>
        rw [hq] at hs
        exact absurd hs (by simp)
    | some q =>
        refine ⟨q, rfl, ?_⟩
        rw [hq] at hb
        simp only [neglog10IsNaN, Option.getD_some] at hb
        exact le_of_not_lt (by simpa using hb)
  · intro ps hps
    simp only [qqData, h] at hps
    injection hps with hps
    intro q hq
    rw [← hps] at hq
    have := (List.mem_filter.mp hq).2
    simpa using this

/-- Witness for the amended C2 at the specification's example table. -/
theorem c2_amended_witness :
    (∀ o, extractTopSnps (.ok frameEx) 1000 = ExtractResult.ok o →
       (∀ r ∈ o.top1000, (rowP 4 r).isSome = true) ∧
       (∀ r ∈ o.top100, (rowP 4 r).isSome = true) ∧
       (∀ r ∈ o.gwSig, (rowP 4 r).isSome = true) ∧
       (∀ r ∈ o.suggestive, (rowP 4 r).isSome = true) ∧
       (∀ r ∈ o.summaryRows, (rowP 4 r).isSome = true)) ∧
    (∀ rs, manhattanData frameEx = PlotData.ok rs →
       ∀ r ∈ rs, ∃ q, rowP 4 r = some q ∧ 0 ≤ q) ∧
    (∀ ps, qqData frameEx = PlotData.ok ps → ∀ q ∈ ps, 0 < q) :=
  c2_amended frameEx 1000 4 (by decide)

/-- Claim C3: on a successful run, every genome-wide-significant record is
also in the suggestive output (5e-8 ≤ 1e-5), and every record of either
threshold output appears (as its five-column summary projection) in the
summary-statistics output. -/
theorem c3_threshold_nesting (f : Frame) (nTop pIdx : ℕ) (h : resolvePCol f = some pIdx)
    (o : ExtractOk) (ho : extractTopSnps (.ok f) nTop = ExtractResult.ok o) :
    (∀ r ∈ o.gwSig, r ∈ o.suggestive) ∧
    (∀ r, (r ∈ o.gwSig ∨ r ∈ o.suggestive) → projectSummary f pIdx r ∈ o.summaryRows) := by
  rw [extract_ok_fields f nTop pIdx h o ho]
  constructor
  · intro r hr
    have h1 := List.mem_filter.mp hr
    exact List.mem_filter.mpr ⟨h1.1, pLT_gw_sugg h1.2⟩
  · intro r hr
    have hc : r ∈ cleanRows pIdx f.rows := by
      rcases hr with hr | hr
      · exact (List.mem_filter.mp hr).1
      · exact (List.mem_filter.mp hr).1
    exact List.mem_map_of_mem _ hc

/-- Witness for C3 at the specification's example table. -/
theorem c3_threshold_nesting_witness :
    (∀ r ∈ oEx.gwSig, r ∈ oEx.suggestive) ∧
    (∀ r, (r ∈ oEx.gwSig ∨ r ∈ oEx.suggestive) →
       projectSummary frameEx 4 r ∈ oEx.summaryRows) :=
  c3_threshold_nesting frameEx 1000 4 (by decide) oEx (by decide)

/-- Counterexample to claim C4 as stated: with `n_top = 1` on a two-record
table, the top-100 output (two rows) is not the first 100 rows of the
top-1000 output (one row), so the prefix property fails for `n_top < 100`. -/
theorem c4_counterexample :
    ∃ o, extractTopSnps (.ok frame2) 1 = ExtractResult.ok o ∧
      o.top100 ≠ List.take 100 o.top1000 :=
  ⟨o2, by decide, by decide⟩

/-- Claim C4 amended: whenever `n_top ≥ 100` (in particular at the default
1000) the top-100 output is the first 100 rows of the top-1000 output; for
every `n_top`, the top-1000 output has at most `n_top` rows and at most as
many rows as the cleaned record set. -/
theorem c4_amended (f : Frame) (nTop pIdx : ℕ) (h : resolvePCol f = some pIdx)
    (o : ExtractOk) (ho : extractTopSnps (.ok f) nTop = ExtractResult.ok o) :
    (100 ≤ nTop → o.top100 = List.take 100 o.top1000) ∧
    o.top1000.length ≤ nTop ∧
    o.top1000.length ≤ (cleanRows pIdx f.rows).length := by
  rw [extract_ok_fields f nTop pIdx h o ho]
  refine ⟨?_, ?_, ?_⟩
  · intro h100
    rw [List.take_take, inf_eq_left.mpr h100]
  · rw [List.length_take]
    exact inf_le_left
  · rw [List.length_take, length_sortByP]
    exact inf_le_right

/-- Witness for the amended C4 at the specification's example table. -/
theorem c4_amended_witness :
    (100 ≤ 1000 → oEx.top100 = List.take 100 oEx.top1000) ∧
    oEx.top1000.length ≤ 1000 ∧
    oEx.top1000.length ≤ (cleanRows 4 frameEx.rows).length :=
  c4_amended frameEx 1000 4 (by decide) oEx (by decide)

/-- Counterexample to claim C7 as stated: invoking the CLI with third
argument `"1"` on a table with two cleaned records still yields two rows
in the top-1000 output, not `min(1, 2) = 1` — the CLI never reads its
third argument. -/
theorem c7_counterexample :
    ∃ o, cliMain readEx ["extract_top_snps.py", "in", "out", "1"] =
        CliResult.ran (ExtractResult.ok o) ∧
      o.top1000.length ≠ min 1 ((cleanRows 4 frame2.rows).length) :=
  ⟨o2Full, by decide, by decide⟩

/-- Claim C7 amended: with at least two real arguments the CLI runs the
extractor, but always with the function default `n_top = 1000` (any third
argument is ignored), so the top-1000 output is the first
`min(1000, cleaned-count)` records of the p-value-sorted cleaned set. -/
theorem c7_amended (read : String → Except String Frame) (argv : List String)
    (h3 : 3 ≤ argv.length) :
    cliMain read argv = CliResult.ran (extractTopSnps (read (argv.getD 1 "")) 1000) ∧
    (∀ f pIdx o, read (argv.getD 1 "") = Except.ok f → resolvePCol f = some pIdx →
       extractTopSnps (Except.ok f) 1000 = ExtractResult.ok o →
       o.top1000 = List.take 1000 (sortByP pIdx (cleanRows pIdx f.rows)) ∧
       o.top1000.length = min 1000 (cleanRows pIdx f.rows).length) := by
  constructor
  · unfold cliMain
    rw [if_neg (by omega)]
  · intro f pIdx o hread hres ho
    rw [extract_ok_fields f 1000 pIdx hres o ho]
    constructor
    · rfl
    · rw [List.length_take, length_sortByP]

/-- Witness for the amended C7 at a concrete four-argument invocation. -/
theorem c7_amended_witness :
    cliMain readEx ["extract_top_snps.py", "in", "out", "1"] =
      CliResult.ran (extractTopSnps (readEx (["extract_top_snps.py", "in", "out", "1"].getD 1 "")) 1000) ∧
    (∀ f pIdx o, readEx (["extract_top_snps.py", "in", "out", "1"].getD 1 "") = Except.ok f →
       resolvePCol f = some pIdx →
       extractTopSnps (Except.ok f) 1000 = ExtractResult.ok o →
       o.top1000 = List.take 1000 (sortByP pIdx (cleanRows pIdx f.rows)) ∧
       o.top1000.length = min 1000 (cleanRows pIdx f.rows).length) :=
  c7_amended readEx ["extract_top_snps.py", "in", "out", "1"] (by decide)

/-- Claim C8: when the p-value column resolves but one of `CHR`, `SNP`,
`BP`, `A1` is absent, the run raises at the summary-statistics step after
the four earlier files were already written — partial output remains, no
counts are returned, and neither the read-error path nor success is
taken. -/
theorem c8_partial_output (f : Frame) (nTop pIdx : ℕ) (h : resolvePCol f = some pIdx)
    (hm : "CHR" ∉ f.cols ∨ "SNP" ∉ f.cols ∨ "BP" ∉ f.cols ∨ "A1" ∉ f.cols) :
    extractTopSnps (.ok f) nTop =
      ExtractResult.summaryError
        ((sortByP pIdx (cleanRows pIdx f.rows)).take nTop)
        ((sortByP pIdx (cleanRows pIdx f.rows)).take 100)
        ((cleanRows pIdx f.rows).filter (fun r => pLT pIdx r gwThreshold))
        ((cleanRows pIdx f.rows).filter (fun r => pLT pIdx r suggThreshold)) ∧
    filesWritten (extractTopSnps (.ok f) nTop) =
      ["top_1000_snps.txt", "top_100_snps.txt",
       "genome_wide_significant_snps_5e-8.txt", "suggestive_snps_1e-5.txt"] ∧
    returnValue (extractTopSnps (.ok f) nTop) = none ∧
    (∀ e, extractTopSnps (.ok f) nTop ≠ ExtractResult.readError e) ∧
    (∀ o, extractTopSnps (.ok f) nTop ≠ ExtractResult.ok o) := by
  have hall : requiredCols.all f.cols.contains = false := by
    rcases hm with hm | hm | hm | hm <;> simp [requiredCols, hm]
  have heq : extractTopSnps (.ok f) nTop =
      ExtractResult.summaryError
        ((sortByP pIdx (cleanRows pIdx f.rows)).take nTop)
        ((sortByP pIdx (cleanRows pIdx f.rows)).take 100)
        ((cleanRows pIdx f.rows).filter (fun r => pLT pIdx r gwThreshold))
        ((cleanRows pIdx f.rows).filter (fun r => pLT pIdx r suggThreshold)) := by
    rw [extract_eq f nTop pIdx h, hall]
    simp
  refine ⟨heq, ?_, ?_, ?_, ?_⟩
  · rw [heq]
    rfl
  · rw [heq]
    rfl
  · intro e hcontra
    rw [heq] at hcontra
    exact ExtractResult.noConfusion hcontra
  · intro o hcontra
    rw [heq] at hcontra
    exact ExtractResult.noConfusion hcontra

/-- Witness for C8 at a table having only a `P` column. -/
theorem c8_partial_output_witness :
    extractTopSnps (.ok ⟨["P"], []⟩) 1000 =
      ExtractResult.summaryError
        ((sortByP 0 (cleanRows 0 (Frame.mk ["P"] []).rows)).take 1000)
        ((sortByP 0 (cleanRows 0 (Frame.mk ["P"] []).rows)).take 100)
        ((cleanRows 0 (Frame.mk ["P"] []).rows).filter (fun r => pLT 0 r gwThreshold))
        ((cleanRows 0 (Frame.mk ["P"] []).rows).filter (fun r => pLT 0 r suggThreshold)) ∧
    filesWritten (extractTopSnps (.ok ⟨["P"], []⟩) 1000) =
      ["top_1000_snps.txt", "top_100_snps.txt",
       "genome_wide_significant_snps_5e-8.txt", "suggestive_snps_1e-5.txt"] ∧
    returnValue (extractTopSnps (.ok ⟨["P"], []⟩) 1000) = none ∧
    (∀ e, extractTopSnps (.ok ⟨["P"], []⟩) 1000 ≠ ExtractResult.readError e) ∧
    (∀ o, extractTopSnps (.ok ⟨["P"], []⟩) 1000 ≠ ExtractResult.ok o) :=
  c8_partial_output ⟨["P"], []⟩ 1000 0 (by decide) (Or.inl (by decide))

end GWAS
